import Mathlib

/-!
# Verification of the csc-log-analysis archive/delete core

Shallow embedding of the archive/delete engine, its MCP tool wrappers, the
Safe-SQL validator and the chat confirmation handler of the
`csc-log-analysis` repository, together with theorems settling the frozen
claims C1..C10.

Conventions of the embedding:

* The fixed-width `YYYYMMDDHHMMSS` timestamp columns are kept as `String`
  and compared lexicographically on character codes (`strLt`), mirroring the
  SQL string comparisons of the source.
* Python `datetime` values are modelled by `DateTime` as a pair of numeric
  `YYYYMMDD` and `HHMMSS` fields, compared lexicographically, which agrees
  with chronological comparison for valid calendar values.  The library
  subtraction `now - timedelta(days=n)` is abstracted as a parameter
  (`subDays`, or directly the cutoff `minArchiveDate`).
* Database tables are Lean lists of `Row`; `INSERT ... SELECT`, `DELETE` and
  the duplicate probes become list computations on them.
* The wall clock used for `job_logs` timestamps is a `Nat` counter in the
  state, incremented at every timestamp event (a rollback does not rewind
  it).
-/

namespace CscLog

/-! ## String utilities (SQL / Python semantics)

All string manipulation is implemented over `String.data` character lists
with structural recursion, so every definition evaluates inside the
kernel. -/

/-- Whether `pat` occurs as a contiguous sublist of `l`. -/
def subOccurs (pat : List Char) : List Char → Bool
  | [] => pat.isEmpty
  | c :: cs => pat.isPrefixOf (c :: cs) || subOccurs pat cs

/-- Python `pat in s`. -/
def containsSub (s pat : String) : Bool :=
  subOccurs pat.data s.data

/-- ASCII uppercasing (Python `.upper()` on the ASCII inputs involved). -/
def toUpperStr (s : String) : String := String.mk (s.data.map Char.toUpper)

/-- ASCII lowercasing (Python `.lower()`). -/
def toLowerStr (s : String) : String := String.mk (s.data.map Char.toLower)

/-- Python `.strip()`. -/
def trimStr (s : String) : String :=
  String.mk
    (((s.data.dropWhile Char.isWhitespace).reverse.dropWhile Char.isWhitespace).reverse)

/-- Python `s.startswith(pat)`. -/
def strStartsWith (s pat : String) : Bool := pat.data.isPrefixOf s.data

/-- The numeric value of a digit list. -/
def digitsToNat (l : List Char) : Nat :=
  l.foldl (fun n c => n * 10 + (c.toNat - 48)) 0

/-- Python `int(s)` for plain digit strings (`None` on `ValueError`). -/
def parseNat (s : String) : Option Nat :=
  if s.data ≠ [] && s.data.all Char.isDigit then some (digitsToNat s.data) else none

/-- Decimal digits of a number, most significant first (fueled). -/
def natDigitsAux : Nat → Nat → List Char
  | 0, _ => []
  | fuel + 1, n =>
    if n < 10 then [Char.ofNat (48 + n)]
    else natDigitsAux fuel (n / 10) ++ [Char.ofNat (48 + n % 10)]

def natToStr (n : Nat) : String := String.mk (natDigitsAux (n + 1) n)

/-- Remove every occurrence of `pat` (Python `s.replace(pat, "")`),
fueled by the input length. -/
def removeSubAux (pat : List Char) : Nat → List Char → List Char
  | 0, l => l
  | _ + 1, [] => []
  | fuel + 1, c :: cs =>
    if pat ≠ [] && pat.isPrefixOf (c :: cs) then
      removeSubAux pat fuel ((c :: cs).drop pat.length)
    else c :: removeSubAux pat fuel cs

def removeSub (s pat : String) : String :=
  String.mk (removeSubAux pat.data s.data.length s.data)

/-- Split at a separator character (Python `s.split(sep)`). -/
def splitOnChar (c : Char) : List Char → List (List Char)
  | [] => [[]]
  | x :: xs =>
    let r := splitOnChar c xs
    if x == c then [] :: r
    else
      match r with
      | h :: t => (x :: h) :: t
      | [] => [[x]]

/-- Lexicographic strict order on character lists, by character code;
this is the comparison the database applies to the fixed-width
`YYYYMMDDHHMMSS` string columns. -/
def charsLt : List Char → List Char → Bool
  | [], [] => false
  | [], _ :: _ => true
  | _ :: _, [] => false
  | a :: as, b :: bs =>
    if a.toNat < b.toNat then true
    else if a.toNat = b.toNat then charsLt as bs
    else false

def strLt (a b : String) : Bool := charsLt a.data b.data

def strLe (a b : String) : Bool := strLt a b || a == b

/-! ## DateTime model -/

/-- A Python `datetime`, as numeric `YYYYMMDD` and `HHMMSS` parts. -/
structure DateTime where
  ymd : Nat
  hms : Nat
deriving DecidableEq, Repr

/-- `a < b` on datetimes (lexicographic; chronological for valid values). -/
def dtLt (a b : DateTime) : Bool :=
  a.ymd < b.ymd || (a.ymd == b.ymd && a.hms < b.hms)

/-- Python `s[:n]`. -/
def strTake (s : String) (n : Nat) : String := String.mk (s.data.take n)

/-- Left-pad a number with zeros to the given width. -/
def padNum (width n : Nat) : String :=
  let s := natToStr n
  String.mk (List.replicate (width - s.data.length) '0') ++ s

/-- `strftime("%Y%m%d%H%M%S")`. -/
def dtToStr (d : DateTime) : String := padNum 8 d.ymd ++ padNum 6 d.hms

def isLeapYear (y : Nat) : Bool :=
  (y % 4 == 0 && y % 100 != 0) || (y % 400 == 0)

def daysInMonth (y m : Nat) : Nat :=
  if m == 2 then (if isLeapYear y then 29 else 28)
  else if m == 4 || m == 6 || m == 9 || m == 11 then 30
  else 31

/-- `datetime.strptime(s, "%Y%m%d")`: eight digits forming a valid calendar
date; returns the numeric `YYYYMMDD` value, or `none` on a parse failure
(the `ValueError` of the source). -/
def parseYYYYMMDD (s : String) : Option Nat :=
  let l := s.data
  if l.length == 8 && l.all Char.isDigit then
    let y := digitsToNat (l.take 4)
    let m := digitsToNat ((l.drop 4).take 2)
    let d := digitsToNat (l.drop 6)
    if 1 ≤ y && y ≤ 9999 && 1 ≤ m && m ≤ 12 && 1 ≤ d && d ≤ daysInMonth y m then
      some (y * 10000 + m * 100 + d)
    else none
  else none

/-! ## AuthService (auth_service.py) -/

structure RolePermissions where
  select : Bool
  archive : Bool
  deleteArchive : Bool
  confirmOperations : Bool
deriving DecidableEq, Repr

/-- `AuthService.get_role_permissions`. -/
def getRolePermissions (role : String) : RolePermissions :=
  if role == "Admin" then ⟨true, true, true, true⟩
  else if role == "Monitor" then ⟨true, false, false, false⟩
  else ⟨false, false, false, false⟩

/-- `AuthService.check_permission`: unknown operations map to `False`. -/
def checkPermission (userRole operation : String) : Bool :=
  let p := getRolePermissions userRole
  let key := toUpperStr operation
  if key == "SELECT" then p.select
  else if key == "ARCHIVE" then p.archive
  else if key == "DELETE" then p.deleteArchive
  else if key == "CONFIRM" then p.confirmOperations
  else false

/-- The `user_role: str = "Admin"` default of both
`execute_archive_operation` and `execute_delete_operation`. -/
def userRoleDefault : String := "Admin"

/-! ## Data model -/

/-- One row of a main or archive table.  `time` is the table's time column
(`PostedTime` for activities, `WhenReceived` for the transaction log), as a
`YYYYMMDDHHMMSS` string.  `guid` is the nullable `GUID` column of the
transaction log. -/
structure Row where
  activityID : String
  guid : Option String
  time : String
  agentName : String
  serverName : String
  userID : String
  deviceID : String
deriving DecidableEq, Repr

/-- The filter dictionary handed to the CRUD service / MCP wrappers.
`olderThan` models `filters["date_comparison"] == "older_than"`;
`dateFilter` is the wrapper-level `date_filter` key; `confirmed` the
`confirmed` key; `limit` is present only as a positive int. -/
structure Filters where
  dateStart : Option String
  dateEnd : Option String
  olderThan : Bool
  agentName : Option String
  serverName : Option String
  userID : Option String
  deviceID : Option String
  limit : Option Nat
  confirmed : Bool
  dateFilter : Option String
deriving DecidableEq, Repr

/-- The empty filter dictionary. -/
def noFilters : Filters :=
  { dateStart := none, dateEnd := none, olderThan := false, agentName := none,
    serverName := none, userID := none, deviceID := none, limit := none,
    confirmed := false, dateFilter := none }

/-- `schemas.ParsedOperation` (the fields the engine reads). -/
structure ParsedOperation where
  action : String
  table : String
  filters : Filters
  isArchiveTarget : Bool
  validationErrors : List String
deriving DecidableEq, Repr

/-- One `job_logs` row. -/
structure JobLog where
  jobType : String
  tableName : String
  status : String
  source : String
  reason : String
  recordsAffected : Nat
  startedAt : Nat
  finishedAt : Option Nat
deriving DecidableEq, Repr

/-- The four physical tables the model classes can denote. -/
inductive PhysTable
  | act
  | tl
  | archAct
  | archTl
deriving DecidableEq, Repr

/-- Database state: the four tables, the job log, and the wall clock. -/
structure DBState where
  act : List Row
  tl : List Row
  archAct : List Row
  archTl : List Row
  jobLogs : List JobLog
  clock : Nat
deriving DecidableEq, Repr

def DBState.get (s : DBState) : PhysTable → List Row
  | .act => s.act
  | .tl => s.tl
  | .archAct => s.archAct
  | .archTl => s.archTl

def DBState.set (s : DBState) : PhysTable → List Row → DBState
  | .act, l => { s with act := l }
  | .tl, l => { s with tl := l }
  | .archAct, l => { s with archAct := l }
  | .archTl, l => { s with archTl := l }

/-- `CRUDService._get_model_classes`: main and archive model for a table
name; archive tables are mapped to themselves (as both main and archive);
unknown tables raise (`none`). -/
def getModelClasses (tableName : String) : Option (PhysTable × PhysTable) :=
  if tableName == "dsiactivities" then some (.act, .archAct)
  else if tableName == "dsitransactionlog" then some (.tl, .archTl)
  else if tableName == "dsiactivitiesarchive" then some (.archAct, .archAct)
  else if tableName == "dsitransactionlogarchive" then some (.archTl, .archTl)
  else none

/-- `CRUDService._get_archive_table_name`. -/
def getArchiveTableName (t : String) : String :=
  if t == "dsiactivities" then "dsiactivitiesarchive"
  else if t == "dsitransactionlog" then "dsitransactionlogarchive"
  else if t == "dsiactivitiesarchive" || t == "dsitransactionlogarchive" then t
  else t ++ "archive"

/-! ## Filter matching

The engine builds three distinct `WHERE` clauses from the same filter
dictionary: the archive/delete clause of `_perform_archive`, the narrower
clauses of `_check_existing_records`, and the SQLAlchemy clause of
`_apply_filters` used by previews and `_perform_delete`. -/

/-- An optional equality filter: absent means no condition. -/
def optEq (o : Option String) (v : String) : Bool :=
  match o with
  | none => true
  | some x => x == v

/-- The date conditions shared by all clause builders: `BETWEEN` when both
ends are present, otherwise `<`/`<=` on `date_end` depending on the
`older_than` comparison flag; a lone `date_start` is ignored. -/
def dateCond (f : Filters) (t : String) : Bool :=
  match f.dateStart, f.dateEnd with
  | some ds, some de => !(strLt t ds) && !(strLt de t)
  | none, some de => if f.olderThan then strLt t de else !(strLt de t)
  | some _, none => true
  | none, none => true

/-- The `where_clause` of `_perform_archive`: dates, `AgentName`,
`ServerName`, and (for the transaction log only) `UserID` and `DeviceID`. -/
def archWhere (table : String) (f : Filters) (r : Row) : Bool :=
  dateCond f r.time && optEq f.agentName r.agentName &&
  optEq f.serverName r.serverName &&
  (if table == "dsitransactionlog" then
    optEq f.userID r.userID && optEq f.deviceID r.deviceID
  else true)

/-- The candidate clause of `_check_existing_records` for the transaction
log: dates, `UserID`, `DeviceID` (no agent/server conditions). -/
def dupWhereTl (f : Filters) (r : Row) : Bool :=
  dateCond f r.time && optEq f.userID r.userID && optEq f.deviceID r.deviceID

/-- The candidate clause of `_check_existing_records` for activities:
dates and `ServerName` only. -/
def dupWhereAct (f : Filters) (r : Row) : Bool :=
  dateCond f r.time && optEq f.serverName r.serverName

/-- Whether the SQLAlchemy model has `UserID`/`DeviceID` columns
(the `hasattr` guards of `_apply_filters`). -/
def hasUserDevice : PhysTable → Bool
  | .tl => true
  | .archTl => true
  | _ => false

/-- The conditions of `_apply_filters` (previews and `_perform_delete`). -/
def previewWhere (p : PhysTable) (f : Filters) (r : Row) : Bool :=
  dateCond f r.time && optEq f.agentName r.agentName &&
  optEq f.serverName r.serverName &&
  (if hasUserDevice p then
    optEq f.userID r.userID && optEq f.deviceID r.deviceID
  else true)

/-- Insertion into a list sorted ascending by the time column. -/
def insertSorted (r : Row) : List Row → List Row
  | [] => [r]
  | x :: xs => if strLe r.time x.time then r :: x :: xs else x :: insertSorted r xs

/-- `ORDER BY <time_field> ASC`. -/
def sortByTime : List Row → List Row
  | [] => []
  | x :: xs => insertSorted x (sortByTime xs)

/-- `ORDER BY <time_field> ASC LIMIT n` when the filters carry a positive
integer `limit`; otherwise the rows unchanged. -/
def applyLimit (f : Filters) (rows : List Row) : List Row :=
  match f.limit with
  | some n => if 0 < n then (sortByTime rows).take n else rows
  | none => rows

/-! ## Duplicate detection (`_check_existing_records`) -/

/-- The non-null `GUID` values of a table (SQL `GUID IS NOT NULL`). -/
def tableGuids (rows : List Row) : List String :=
  rows.filterMap Row.guid

/-- `_check_existing_records` for `dsitransactionlog`: the set of non-null,
non-empty candidate GUIDs of main rows matching the candidate clause that
already exist in the archive table. -/
def existingGuids (f : Filters) (s : DBState) : List String :=
  let cands := ((s.tl.filter (fun r => dupWhereTl f r)).filterMap Row.guid).filter
    (fun g => g != "")
  cands.dedup.filter (fun g => (tableGuids s.archTl).contains g)

/-- `_check_existing_records` for `dsiactivities`: the set of
`(ActivityID, PostedTime)` pairs of main rows matching the candidate
clause that already exist in the archive table. -/
def existingActPairs (f : Filters) (s : DBState) : List (String × String) :=
  let cands := (s.act.filter (fun r => dupWhereAct f r)).map
    (fun r => (r.activityID, r.time))
  cands.dedup.filter
    (fun p => (s.archAct.map (fun r => (r.activityID, r.time))).contains p)

/-! ## `_perform_archive` -/

structure ArchiveCounts where
  archived : Nat
  deleted : Nat
  skipped : Nat
deriving DecidableEq, Repr

/-- The rows inserted by the transaction-log archive statement: main rows
matching the full `where_clause`, excluding the detected duplicate GUIDs,
with the belt-and-braces `NOT EXISTS` archive probe and the
`GUID IS NOT NULL` guard, then ordered and limited. -/
def tlInsertPred (f : Filters) (existing archGuids : List String) (r : Row) : Bool :=
  archWhere "dsitransactionlog" f r &&
  (match r.guid with
   | some g => !(existing.contains g) && !(archGuids.contains g)
   | none => false)

/-- The rows deleted from the source table (`Step 5: Clean source`): every
row matching the plain `where_clause` when no limit is given; with a limit,
rows whose primary key appears in the ordered, limited key subquery. -/
def deletePred (table : String) (f : Filters) (rows : List Row) (r : Row) : Bool :=
  match f.limit with
  | some n =>
    if 0 < n then
      let sel := (sortByTime (rows.filter (archWhere table f))).take n
      if table == "dsiactivities" then
        (sel.map Row.activityID).contains r.activityID
      else
        match r.guid with
        | some g => (sel.filterMap Row.guid).contains g
        | none => false
    else archWhere table f r
  | none => archWhere table f r

/-- The transaction-log body of `_perform_archive`: duplicate probe,
duplicate-excluding insert into the archive table, then the source
delete. -/
def performArchiveTl (f : Filters) (s : DBState) : ArchiveCounts × DBState :=
  let existing := existingGuids f s
  let inserted := applyLimit f
    (s.tl.filter (fun r => tlInsertPred f existing (tableGuids s.archTl) r))
  let remaining := s.tl.filter (fun r => !(deletePred "dsitransactionlog" f s.tl r))
  let deleted := (s.tl.filter (fun r => deletePred "dsitransactionlog" f s.tl r)).length
  (⟨inserted.length, deleted, existing.length⟩,
   { s with tl := remaining, archTl := s.archTl ++ inserted })

/-- The activities body of `_perform_archive`: the duplicate key is the
`(ActivityID, PostedTime)` pair and the exclusion is a conjunction of
negated pair equalities (no `GUID IS NOT NULL` belt). -/
def performArchiveAct (f : Filters) (s : DBState) : ArchiveCounts × DBState :=
  let existing := existingActPairs f s
  let inserted := applyLimit f
    (s.act.filter (fun r =>
      archWhere "dsiactivities" f r && !(existing.contains (r.activityID, r.time))))
  let remaining := s.act.filter (fun r => !(deletePred "dsiactivities" f s.act r))
  let deleted := (s.act.filter (fun r => deletePred "dsiactivities" f s.act r)).length
  (⟨inserted.length, deleted, existing.length⟩,
   { s with act := remaining, archAct := s.archAct ++ inserted })

/-- `CRUDService._perform_archive`: dispatch on the operation's table;
tables without a column mapping raise. -/
def performArchive (op : ParsedOperation) (s : DBState) :
    Except String (ArchiveCounts × DBState) :=
  if op.table == "dsitransactionlog" then .ok (performArchiveTl op.filters s)
  else if op.table == "dsiactivities" then .ok (performArchiveAct op.filters s)
  else .error ("Unknown table for column mapping: " ++ op.table)

/-! ## The CRUD service entry points -/

/-- The distinct error returns of the service, one constructor per return
site family (each an `{"success": False, "error": ...}` message). -/
inductive OpError
  | permissionDenied
  | validationFailed (errs : List String)
  | safetyRuleViolation
  | deleteNotArchiveTarget
  | internal (msg : String)
deriving DecidableEq, Repr

/-- The result dictionary of an archive/delete call (the fields the claims
read). -/
structure OpResult where
  success : Bool
  error : Option OpError
  requiresConfirmation : Bool
  previewCount : Nat
  recordsArchived : Nat
  recordsDeleted : Nat
  recordsSkipped : Nat
deriving DecidableEq, Repr

def errResult (e : OpError) : OpResult :=
  { success := false, error := some e, requiresConfirmation := false,
    previewCount := 0, recordsArchived := 0, recordsDeleted := 0,
    recordsSkipped := 0 }

/-- The retention gate shared (at different cutoffs) by
`execute_archive_operation` and `execute_delete_operation`: it fires iff a
`date_end` filter of length ≥ 8 is present, its first eight characters
parse as a date, and that date at midnight is later than the cutoff
(`now - 7d` or `now - 30d`); an unparseable `date_end` only logs a warning
(gate skipped). -/
def retentionGateViolated (minDate : DateTime) (f : Filters) : Bool :=
  match f.dateEnd with
  | none => false
  | some s =>
    if s.data.length ≥ 8 then
      match parseYYYYMMDD (strTake s 8) with
      | some ymd => dtLt minDate ⟨ymd, 0⟩
      | none => false
    else false

/-- `_preview_archive_operation` plus the `requires_confirmation` flag the
caller adds for a positive count. -/
def previewArchive (op : ParsedOperation) (s : DBState) : OpResult × DBState :=
  match getModelClasses op.table with
  | none => (errResult (.internal ("Unsupported table: " ++ op.table)), s)
  | some (mainT, _) =>
    let rows := applyLimit op.filters
      ((s.get mainT).filter (previewWhere mainT op.filters))
    let c := rows.length
    ({ success := true, error := none, requiresConfirmation := c > 0,
       previewCount := c, recordsArchived := 0, recordsDeleted := 0,
       recordsSkipped := 0 }, s)

/-- The confirmed-execution branch of `execute_archive_operation`: open the
job log (IN_PROGRESS, flushed inside the transaction), run
`_perform_archive`, close the job log SUCCESS and commit; on an exception,
roll back (which also discards the flushed IN_PROGRESS row) and write a
fresh FAILED job-log row. -/
def archiveConfirmed (op : ParsedOperation) (s : DBState) : OpResult × DBState :=
  match getModelClasses op.table with
  | none => (errResult (.internal ("Unsupported table: " ++ op.table)), s)
  | some _ =>
    let started := s.clock
    let jl : JobLog :=
      { jobType := "ARCHIVE", tableName := op.table, status := "IN_PROGRESS",
        source := "CHATBOT", reason := "Archive operation initiated",
        recordsAffected := 0, startedAt := started, finishedAt := none }
    let s1 : DBState := { s with jobLogs := s.jobLogs ++ [jl], clock := s.clock + 1 }
    match performArchive op s1 with
    | .ok (c, s2) =>
      let jl2 : JobLog := { jl with
        status := "SUCCESS"
        recordsAffected := c.archived
        finishedAt := some s2.clock
        reason := "Archive completed" }
      (({ success := true, error := none, requiresConfirmation := false,
          previewCount := 0, recordsArchived := c.archived,
          recordsDeleted := c.deleted, recordsSkipped := c.skipped } : OpResult),
       { s2 with jobLogs := s.jobLogs ++ [jl2], clock := s2.clock + 1 })
    | .error e =>
      let failLog : JobLog :=
        { jobType := "ARCHIVE", tableName := op.table, status := "FAILED",
          source := "CHATBOT", reason := e, recordsAffected := 0,
          startedAt := s1.clock, finishedAt := some s1.clock }
      (errResult (.internal e),
       { s with jobLogs := s.jobLogs ++ [failLog], clock := s1.clock + 1 })

/-- The preview-or-execute continuation reached once the permission,
validation and retention checks of `execute_archive_operation` have all
passed. -/
def archiveAfterGate (op : ParsedOperation) (confirmed : Bool) (s : DBState) :
    OpResult × DBState :=
  if !confirmed then previewArchive op s else archiveConfirmed op s

/-- `CRUDService.execute_archive_operation`. -/
def executeArchiveOperation (op : ParsedOperation) (userRole : String)
    (confirmed : Bool) (minArchiveDate : DateTime) (s : DBState) :
    OpResult × DBState :=
  if !(checkPermission userRole "ARCHIVE") then (errResult .permissionDenied, s)
  else if op.validationErrors ≠ [] then
    (errResult (.validationFailed op.validationErrors), s)
  else if retentionGateViolated minArchiveDate op.filters then
    (errResult .safetyRuleViolation, s)
  else archiveAfterGate op confirmed s

/-- `_preview_delete_operation` plus the `requires_confirmation` flag. -/
def previewDelete (op : ParsedOperation) (s : DBState) : OpResult × DBState :=
  match getModelClasses op.table with
  | none => (errResult (.internal ("Unsupported table: " ++ op.table)), s)
  | some (_, archT) =>
    let rows := applyLimit op.filters
      ((s.get archT).filter (previewWhere archT op.filters))
    let c := rows.length
    ({ success := true, error := none, requiresConfirmation := c > 0,
       previewCount := c, recordsArchived := 0, recordsDeleted := 0,
       recordsSkipped := 0 }, s)

/-- Whether `_apply_filters` has applied `order_by(...).limit(n)` to the
query: the filters carry a positive integer `limit`. -/
def limitApplied (f : Filters) : Bool :=
  match f.limit with
  | some n => 0 < n
  | none => false

/-- `_perform_delete`: `query.delete(synchronize_session=False)` on the
query built by `_apply_filters`.  When the filters carry a positive
integer `limit`, `_apply_filters` has applied `order_by(...).limit(n)` and
`Query.delete()` raises `InvalidRequestError` before touching any row;
otherwise every row matching the filter conditions is removed and the
rowcount returned. -/
def performDelete (f : Filters) (archT : PhysTable) (s : DBState) :
    Except String (Nat × DBState) :=
  if limitApplied f then
    .error "InvalidRequestError: delete() on a query with a limit"
  else
    .ok (((s.get archT).filter (fun r => previewWhere archT f r)).length,
      s.set archT ((s.get archT).filter (fun r => !(previewWhere archT f r))))

/-- The confirmed-execution branch of `execute_delete_operation`: open the
job log (IN_PROGRESS, flushed inside the transaction), run
`_perform_delete`, close the job log SUCCESS and commit; on an exception
(such as the `InvalidRequestError` a limited query raises), roll back
(which also discards the flushed IN_PROGRESS row) and write a fresh FAILED
job-log row. -/
def deleteConfirmed (op : ParsedOperation) (s : DBState) : OpResult × DBState :=
  match getModelClasses op.table with
  | none => (errResult (.internal ("Unsupported table: " ++ op.table)), s)
  | some (_, archT) =>
    let started := s.clock
    let jl : JobLog :=
      { jobType := "DELETE", tableName := getArchiveTableName op.table,
        status := "IN_PROGRESS", source := "CHATBOT",
        reason := "Delete operation initiated", recordsAffected := 0,
        startedAt := started, finishedAt := none }
    let s1 : DBState := { s with jobLogs := s.jobLogs ++ [jl], clock := s.clock + 1 }
    match performDelete op.filters archT s1 with
    | .ok (n, s2) =>
      let jl2 : JobLog := { jl with
        status := "SUCCESS"
        recordsAffected := n
        finishedAt := some s2.clock
        reason := "Delete completed" }
      (({ success := true, error := none, requiresConfirmation := false,
          previewCount := 0, recordsArchived := 0,
          recordsDeleted := n, recordsSkipped := 0 } : OpResult),
       { s2 with jobLogs := s.jobLogs ++ [jl2], clock := s2.clock + 1 })
    | .error e =>
      let failLog : JobLog :=
        { jobType := "DELETE", tableName := getArchiveTableName op.table,
          status := "FAILED", source := "CHATBOT", reason := e,
          recordsAffected := 0, startedAt := s1.clock, finishedAt := some s1.clock }
      (errResult (.internal e),
       { s with jobLogs := s.jobLogs ++ [failLog], clock := s1.clock + 1 })

/-- The preview-or-execute continuation of `execute_delete_operation`. -/
def deleteAfterGate (op : ParsedOperation) (confirmed : Bool) (s : DBState) :
    OpResult × DBState :=
  if !confirmed then previewDelete op s else deleteConfirmed op s

/-- `CRUDService.execute_delete_operation`. -/
def executeDeleteOperation (op : ParsedOperation) (userRole : String)
    (confirmed : Bool) (minDeleteDate : DateTime) (s : DBState) :
    OpResult × DBState :=
  if !(checkPermission userRole "DELETE") then (errResult .permissionDenied, s)
  else if op.validationErrors ≠ [] then
    (errResult (.validationFailed op.validationErrors), s)
  else if !op.isArchiveTarget then (errResult .deleteNotArchiveTarget, s)
  else if retentionGateViolated minDeleteDate op.filters then
    (errResult .safetyRuleViolation, s)
  else deleteAfterGate op confirmed s

/-! ## MCP tool wrappers (`cloud_mcp/server.py`)

`_archive_records` and `_delete_archived_records` pop `confirmed` and
(for archive) `limit` from the filters, substitute a default
`older_than_{7,30}_days` date filter when no date filter was given, convert
the `date_filter` phrase into a `date_end` cutoff (`now - n days`,
abstracted as `subDays`), and re-attach `confirmed` and `limit` before
calling the CRUD core with `user_role="Admin"`. -/

/-- Result of the wrapper's filter preprocessing: either one of its own
`Safety rule violation` early returns, or the processed filters plus the
popped `confirmed` flag. -/
inductive PreprocessResult
  | violation (msg : String)
  | proceed (processed : Filters) (isConfirmed : Bool)
deriving DecidableEq, Repr

/-- `int(parts[0]), parts[1]` of the `older_than_N_unit` phrase, after
`replace("older_than_", "")` and `split("_")`; `none` on a `ValueError`. -/
def parseOlderThan (df : String) : Option (Nat × String) :=
  match splitOnChar '_' (removeSub df "older_than_").data with
  | n :: u :: _ =>
    match parseNat (String.mk n) with
    | some num => some (num, String.mk u)
    | none => none
  | _ => none

/-- The shared preprocessing of `_archive_records` (`defaultFilter =
"older_than_7_days"`, `minDays = 7`) and `_delete_archived_records`
(`"older_than_30_days"`, `30`). -/
def mcpPreprocess (subDays : Nat → DateTime) (defaultFilter : String)
    (minDays : Nat) (f : Filters) : PreprocessResult :=
  let isConfirmed := f.confirmed
  let recordLimit := f.limit
  let f1 : Filters := { f with confirmed := false, limit := none }
  let f2 := if f1.dateFilter.isNone && f1.dateEnd.isNone then
      { f1 with dateFilter := some defaultFilter }
    else f1
  match f2.dateFilter with
  | none => .proceed { f2 with confirmed := isConfirmed, limit := recordLimit } isConfirmed
  | some df =>
    let f3 : Filters := { f2 with dateFilter := none }
    if containsSub df "older_than_" then
      match parseOlderThan df with
      | some (n, unit) =>
        if strStartsWith unit "day" && n < minDays then
          .violation "Safety rule violation: below the minimum age"
        else
          let cutoff :=
            if strStartsWith unit "month" then some (subDays (n * 30))
            else if strStartsWith unit "day" then some (subDays n)
            else if strStartsWith unit "year" then some (subDays (n * 365))
            else none
          let f4 := match cutoff with
            | some c => { f3 with dateEnd := some (dtToStr c), olderThan := true }
            | none => f3
          .proceed { f4 with confirmed := isConfirmed, limit := recordLimit } isConfirmed
      | none =>
        .proceed { f3 with confirmed := isConfirmed, limit := recordLimit } isConfirmed
    else if df == "yesterday" then
      .violation "Safety rule violation: yesterday is too recent"
    else if df == "recent" then
      .violation "Safety rule violation: recent records are too recent"
    else .proceed { f3 with confirmed := isConfirmed, limit := recordLimit } isConfirmed

/-- `_archive_records`: preprocess, then call `execute_archive_operation`
with `user_role="Admin"` on a mock `ParsedOperation` with empty validation
errors and `is_archive_target=False`. -/
def archiveRecords (subDays : Nat → DateTime) (minArchiveDate : DateTime)
    (tableName : String) (f : Filters) (s : DBState) : OpResult × DBState :=
  match mcpPreprocess subDays "older_than_7_days" 7 f with
  | .violation _ => (errResult .safetyRuleViolation, s)
  | .proceed pf isConf =>
    executeArchiveOperation
      { action := "ARCHIVE", table := tableName, filters := pf,
        isArchiveTarget := false, validationErrors := [] }
      "Admin" isConf minArchiveDate s

/-- `_delete_archived_records`: preprocess, map the table name to its
archive twin, then call `execute_delete_operation` with
`user_role="Admin"` and `is_archive_target=True`. -/
def deleteArchivedRecords (subDays : Nat → DateTime) (minDeleteDate : DateTime)
    (tableName : String) (f : Filters) (s : DBState) : OpResult × DBState :=
  match mcpPreprocess subDays "older_than_30_days" 30 f with
  | .violation _ => (errResult .safetyRuleViolation, s)
  | .proceed pf isConf =>
    executeDeleteOperation
      { action := "DELETE", table := getArchiveTableName tableName,
        filters := pf, isArchiveTarget := true, validationErrors := [] }
      "Admin" isConf minDeleteDate s

/-! ## Safe-SQL validator (`_execute_sql_query`) -/

def isWordChar (c : Char) : Bool := c.isAlphanum || c == '_'

/-- Drop characters up to and including the next occurrence of `q`. -/
def dropThroughChar (q : Char) : List Char → Option (List Char)
  | [] => none
  | c :: cs => if c == q then some cs else dropThroughChar q cs

/-- `re.sub(r"q[^q]*q", "", s)`: remove quote-delimited runs pairwise,
leaving a final unpaired quote in place.  Fueled by the input length. -/
def stripQuotedAux (q : Char) : Nat → List Char → List Char
  | 0, l => l
  | _ + 1, [] => []
  | fuel + 1, c :: cs =>
    if c == q then
      match dropThroughChar q cs with
      | some rest => stripQuotedAux q fuel rest
      | none => c :: cs
    else c :: stripQuotedAux q fuel cs

def stripQuotedChar (q : Char) (s : String) : String :=
  String.mk (stripQuotedAux q s.data.length s.data)

/-- Remove single-quoted then double-quoted literals (lines 1418-1419). -/
def stripQuotes (s : String) : String :=
  stripQuotedChar (Char.ofNat 34) (stripQuotedChar (Char.ofNat 39) s)

/-- One step of a forbidden pattern: a literal keyword, `\s+`, or `\w+`. -/
inductive PatStep
  | lit (s : String)
  | ws
  | word
deriving Repr

def litAfter (pat : List Char) (l : List Char) : Option (List Char) :=
  if pat.isPrefixOf l then some (l.drop pat.length) else none

def wsAfter : List Char → Option (List Char)
  | c :: cs => if c.isWhitespace then some (cs.dropWhile Char.isWhitespace) else none
  | [] => none

def wordAfter : List Char → Option (List Char)
  | c :: cs => if isWordChar c then some (cs.dropWhile isWordChar) else none
  | [] => none

def runPat : List PatStep → List Char → Option (List Char)
  | [], l => some l
  | .lit s :: ps, l => (litAfter s.data l).bind (runPat ps)
  | .ws :: ps, l => (wsAfter l).bind (runPat ps)
  | .word :: ps, l => (wordAfter l).bind (runPat ps)

/-- `\b` after the match: next char absent or not a word char. -/
def endBoundary : List Char → Bool
  | [] => true
  | c :: _ => !(isWordChar c)

def matchAt (p : List PatStep) (l : List Char) : Bool :=
  match runPat p l with
  | some rest => endBoundary rest
  | none => false

/-- Search for `\b<pattern>\b`: `b` records whether a word boundary
precedes the current position. -/
def findPatFrom (p : List PatStep) : Bool → List Char → Bool
  | _, [] => false
  | b, c :: cs => (b && matchAt p (c :: cs)) || findPatFrom p (!(isWordChar c)) cs

def findPat (p : List PatStep) (s : String) : Bool :=
  findPatFrom p true s.data

/-- The `forbidden_patterns` list of `_execute_sql_query`, in source
order, with the keyword tag the error message reports. -/
def forbiddenPatterns : List (String × List PatStep) :=
  [("INSERT INTO", [.lit "INSERT", .ws, .lit "INTO"]),
   ("UPDATE SET", [.lit "UPDATE", .ws, .word, .ws, .lit "SET"]),
   ("DELETE FROM", [.lit "DELETE", .ws, .lit "FROM"]),
   ("DROP", [.lit "DROP", .ws, .word]),
   ("ALTER", [.lit "ALTER", .ws, .word]),
   ("TRUNCATE", [.lit "TRUNCATE", .ws, .word]),
   ("CREATE", [.lit "CREATE", .ws, .word]),
   ("EXEC", [.lit "EXEC"]),
   ("EXECUTE", [.lit "EXECUTE"]),
   ("SP", [.lit "SP_", .word]),
   ("XP", [.lit "XP_", .word]),
   ("MERGE", [.lit "MERGE"]),
   ("BULK", [.lit "BULK"]),
   ("OPENROWSET", [.lit "OPENROWSET"])]

/-- The first forbidden pattern found in the cleaned SQL, if any. -/
def findForbidden (s : String) : Option String :=
  (forbiddenPatterns.find? (fun kp => findPat kp.2 s)).map Prod.fst

/-- `generated_sql.split(';')[0].strip()` — the silent truncation to the
first semicolon-separated statement (lines 1392-1397). -/
def firstStatement (s : String) : String :=
  trimStr (String.mk (s.data.takeWhile (fun c => c != ';')))

/-- `rstrip(';')`. -/
def rstripSemis (s : String) : String :=
  String.mk ((s.data.reverse.dropWhile (fun c => c == ';')).reverse)

/-- Outcome of the Safe-SQL validation: an early error (nothing executed)
or the final SQL string handed to the database. -/
inductive SqlOutcome
  | emptyQuery
  | securityViolation (kw : String)
  | notSelect
  | run (finalSql : String)
deriving DecidableEq, Repr

/-- The validation pipeline of `_execute_sql_query` after the LLM cleanup:
truncate to the first semicolon-separated statement, uppercase, mask quoted
literals, scan for forbidden patterns, require a `SELECT` prefix, strip
trailing semicolons, and append `LIMIT 100` when neither `LIMIT` nor `TOP`
occurs in the uppercased statement. -/
def validateSqlQuery (generatedSql : String) : SqlOutcome :=
  let g := firstStatement generatedSql
  if g == "" then .emptyQuery
  else
    let sqlUpper := trimStr (toUpperStr g)
    let noStrings := stripQuotes sqlUpper
    match findForbidden noStrings with
    | some kw => .securityViolation kw
    | none =>
      if !(strStartsWith sqlUpper "SELECT") then .notSelect
      else
        let g2 := trimStr (rstripSemis g)
        if !(containsSub sqlUpper "LIMIT") && !(containsSub sqlUpper "TOP") then
          .run ((rstripSemis g2) ++ " LIMIT 100")
        else .run g2

/-! ## Chat confirmation handler (`chat_service.py`) -/

/-- A persisted chat turn (the fields the confirmation handler reads). -/
structure ChatTurn where
  userMessage : String
  botResponse : String
  tableName : Option String
deriving DecidableEq, Repr

/-- The first scan over the recent logs (most recent first): a turn whose
bot response contains `Archive Preview` or `Delete Preview`. -/
def findPreviewTurn (logs : List ChatTurn) : Option ChatTurn :=
  logs.find? (fun l =>
    containsSub l.botResponse "Archive Preview" ||
    containsSub l.botResponse "Delete Preview")

/-- The fallback scan: any turn whose user message mentions archive or
delete. -/
def findRelatedTurn (logs : List ChatTurn) : Option ChatTurn :=
  logs.find? (fun l =>
    containsSub (toLowerStr l.userMessage) "archive" ||
    containsSub (toLowerStr l.userMessage) "delete")

/-- `_execute_stored_confirmation`'s table resolution: the stored table
name if truthy; else keywords of the original user message; else table
names in the bot response; else the last-resort fallback
`"dsiactivities"`. -/
def resolveConfirmTable (t : ChatTurn) : String :=
  let stored := match t.tableName with
    | some tn => if tn == "" then none else some tn
    | none => none
  match stored with
  | some tn => tn
  | none =>
    let um := toLowerStr t.userMessage
    if containsSub um "activities" || containsSub um "activity" then "dsiactivities"
    else if containsSub um "transaction" then "dsitransactionlog"
    else if containsSub (toLowerStr t.botResponse) "dsitransactionlog" then
      "dsitransactionlog"
    else if containsSub (toLowerStr t.botResponse) "dsiactivities" then "dsiactivities"
    else "dsiactivities"

/-- What the confirmation handler does with a turn: refuse, or execute an
archive/delete against a resolved table. -/
inductive ConfirmOutcome
  | refused
  | execArchive (table : String)
  | execDelete (table : String)
  | invalid
deriving DecidableEq, Repr

/-- `_handle_operation_confirmation` for the `CONFIRM ARCHIVE` /
`CONFIRM DELETE` literals: recover a preview turn, else any
archive/delete-related turn, and execute against its resolved table;
refuse only when neither scan finds a turn. -/
def handleOperationConfirmation (messageUpper : String) (logs : List ChatTurn) :
    ConfirmOutcome :=
  if containsSub messageUpper "CONFIRM ARCHIVE" ||
     containsSub messageUpper "CONFIRM DELETE" then
    let turn := match findPreviewTurn logs with
      | some t => some t
      | none => findRelatedTurn logs
    match turn with
    | some t =>
      if containsSub messageUpper "CONFIRM ARCHIVE" then
        .execArchive (resolveConfirmTable t)
      else .execDelete (resolveConfirmTable t)
    | none => .refused
  else .invalid

/-! ## Derived helpers and concrete scenarios used by the claim theorems -/

/-- The mock `ParsedOperation` built by `_archive_records`. -/
def mkArchiveOp (table : String) (f : Filters) : ParsedOperation :=
  { action := "ARCHIVE", table := table, filters := f,
    isArchiveTarget := false, validationErrors := [] }

/-- Whether a result is the `Permission denied` error. -/
def isPermissionDenied (r : OpResult) : Bool :=
  match r.error with
  | some .permissionDenied => true
  | _ => false

/-- `now - 7 days` for the reference instant `2025-10-15 12:00:00`. -/
def refMinArchiveDate : DateTime := ⟨20251008, 120000⟩

/-- `now - n days` for the reference instant, at day granularity (the
month boundary is not crossed in the scenarios below). -/
def refSubDays : Nat → DateTime := fun n => ⟨20251015 - n, 120000⟩

def stEmpty : DBState :=
  { act := [], tl := [], archAct := [], archTl := [], jobLogs := [], clock := 0 }

/-- C1 scenario: a transaction-log row whose GUID already exists in the
archive, plus a row with a NULL GUID, both matching the filter. -/
def rowDupC1 : Row :=
  { activityID := "x", guid := some "g1", time := "20240101120000",
    agentName := "agentA", serverName := "srvA", userID := "u1", deviceID := "d1" }

def rowNullC1 : Row :=
  { activityID := "y", guid := none, time := "20240102120000",
    agentName := "agentA", serverName := "srvA", userID := "u1", deviceID := "d1" }

def archRowC1 : Row :=
  { activityID := "z", guid := some "g1", time := "20230101000000",
    agentName := "agentA", serverName := "srvA", userID := "u1", deviceID := "d1" }

def stC1 : DBState :=
  { act := [], tl := [rowDupC1, rowNullC1], archAct := [], archTl := [archRowC1],
    jobLogs := [], clock := 0 }

def opC1 : ParsedOperation :=
  mkArchiveOp "dsitransactionlog" { noFilters with dateEnd := some "20240201000000" }

def c1Run : OpResult × DBState :=
  executeArchiveOperation opC1 userRoleDefault true refMinArchiveDate stC1

/-- C2 scenario: a row received 13:00 on the cutoff day — newer than
`now - 7d` (12:00) — selected by a `date_end` filter whose date part
equals the cutoff day. -/
def rowC2 : Row :=
  { activityID := "a1", guid := some "g2", time := "20251008130000",
    agentName := "agentA", serverName := "srvA", userID := "u1", deviceID := "d1" }

def stC2 : DBState :=
  { act := [], tl := [rowC2], archAct := [], archTl := [], jobLogs := [], clock := 0 }

def opC2 : ParsedOperation :=
  mkArchiveOp "dsitransactionlog" { noFilters with dateEnd := some "20251008235959" }

def c2Run : OpResult × DBState :=
  executeArchiveOperation opC2 userRoleDefault true refMinArchiveDate stC2

/-- A gate-violating operation (cutoff one week later than allowed). -/
def opC2v : ParsedOperation :=
  mkArchiveOp "dsitransactionlog" { noFilters with dateEnd := some "20251015120000" }

/-- C3 scenario: a confirmed call that fails validation. -/
def opC3 : ParsedOperation :=
  { action := "ARCHIVE", table := "dsitransactionlog", filters := noFilters,
    isArchiveTarget := false, validationErrors := ["missing table"] }

def c3Run : OpResult × DBState :=
  executeArchiveOperation opC3 userRoleDefault true refMinArchiveDate stEmpty

/-- A delete operation over the archive table, for the C3 witness. -/
def opC3d : ParsedOperation :=
  { action := "DELETE", table := "dsitransactionlogarchive", filters := noFilters,
    isArchiveTarget := true, validationErrors := [] }

/-- A confirmed delete carrying a positive limit: `_apply_filters` limits
the query and `Query.delete()` raises, so the run fails inside its
transaction. -/
def opC3dLim : ParsedOperation :=
  { action := "DELETE", table := "dsitransactionlogarchive",
    filters := { noFilters with limit := some 5 },
    isArchiveTarget := true, validationErrors := [] }

/-- C5 scenario: an ARCHIVE whose target is already an archive table. -/
def opC5 : ParsedOperation := mkArchiveOp "dsiactivitiesarchive" noFilters

/-- A delete operation not marked as targeting an archive table, for the
C5 witness. -/
def opC5w : ParsedOperation :=
  { action := "DELETE", table := "dsitransactionlogarchive", filters := noFilters,
    isArchiveTarget := false, validationErrors := [] }

/-- C6 scenario: a stored turn that mentions archiving but is not a
preview and names no table. -/
def turnC6 : ChatTurn :=
  { userMessage := "please archive the logs", botResponse := "done", tableName := none }

/-- C7 scenario: one fresh row, archived and deleted by the first run. -/
def rowC7 : Row :=
  { activityID := "a", guid := some "gA", time := "20240101000000",
    agentName := "agentA", serverName := "srvA", userID := "u1", deviceID := "d1" }

def stC7 : DBState :=
  { act := [], tl := [rowC7], archAct := [], archTl := [], jobLogs := [], clock := 0 }

def opC7 : ParsedOperation :=
  mkArchiveOp "dsitransactionlog" { noFilters with dateEnd := some "20240201000000" }

def c7Run1 : OpResult × DBState :=
  executeArchiveOperation opC7 userRoleDefault true refMinArchiveDate stC7

def c7Run2 : OpResult × DBState :=
  executeArchiveOperation opC7 userRoleDefault true refMinArchiveDate c7Run1.2

/-- The state after the first C7 `_perform_archive` run (for the witness
of the amended idempotence theorem). -/
def s1C7 : DBState :=
  { act := [], tl := [], archAct := [], archTl := [rowC7], jobLogs := [], clock := 0 }

/-- C8 scenario: a limit-only request. -/
def fC8 : Filters := { noFilters with limit := some 300, confirmed := true }

/-- C10 scenario: a `date_end` whose first eight characters do not parse. -/
def opC10 : ParsedOperation :=
  { action := "ARCHIVE", table := "dsitransactionlogarchive",
    filters := { noFilters with dateEnd := some "2025XX08000000" },
    isArchiveTarget := true, validationErrors := [] }

/-! ## Claim C1 -/

/-- Claim C1 (code digest at the failing input): on a confirmed ARCHIVE of
`dsitransactionlog` where one filtered row's GUID already exists in the
archive and another filtered row has a NULL GUID, the run reports
`archivedCount = 0`, `skippedCount = 1` but `sourceDeletedCount = 2`, and
afterwards zero rows matching the filter remain in main — the skipped
duplicate was deleted from main rather than left untouched, so both
`archivedCount + skippedCount = sourceDeletedCount` and
`countMain(filter) = skippedCount` fail, contradicting the claim and the
source's own `delete only the records that were actually archived`
comment. -/
theorem C1_code_behavior :
    c1Run.1.success = true ∧
    c1Run.1.recordsArchived = 0 ∧
    c1Run.1.recordsSkipped = 1 ∧
    c1Run.1.recordsDeleted = 2 ∧
    c1Run.1.recordsArchived + c1Run.1.recordsSkipped ≠ c1Run.1.recordsDeleted ∧
    (c1Run.2.tl.filter (archWhere "dsitransactionlog" opC1.filters)).length = 0 ∧
    (c1Run.2.tl.filter (archWhere "dsitransactionlog" opC1.filters)).length ≠
      c1Run.1.recordsSkipped := by
  decide

/-! ## Claim C2 -/

/-- Claim C2 counterexample: a confirmed ARCHIVE whose `date_end` is
`20251008235959` passes the retention gate at `now = 2025-10-15 12:00`
(the gate compares only the date part, at midnight), although the selected
row `20251008130000` is newer than `now - 7d = 20251008120000`; the call
succeeds, moves the row, writes a SUCCESS job log, and returns no safety
violation. -/
theorem C2_counterexample :
    strLt (dtToStr refMinArchiveDate) rowC2.time = true ∧
    archWhere "dsitransactionlog" opC2.filters rowC2 = true ∧
    c2Run.1.success = true ∧
    c2Run.1.error = none ∧
    c2Run.1.recordsArchived = 1 ∧
    c2Run.2.archTl = [rowC2] ∧
    c2Run.2.jobLogs.map JobLog.status = ["SUCCESS"] := by
  decide

/-- Claim C2 amended: the 7-day retention gate is a filter-level check at
day granularity — whenever the supplied `date_end` parses to a calendar day
after `now - 7d` (compared at midnight), a permitted, validation-clean
confirmed ARCHIVE returns the safety-violation error with the database
state unchanged (no rows moved, no job log).  Rows themselves are never
inspected, so selections via an unparseable `date_end` or via times later
the same day as the cutoff can bypass the gate. -/
theorem C2_amended (op : ParsedOperation) (role : String) (d : DateTime)
    (s : DBState)
    (hperm : checkPermission role "ARCHIVE" = true)
    (hval : op.validationErrors = [])
    (hgate : retentionGateViolated d op.filters = true) :
    executeArchiveOperation op role true d s = (errResult .safetyRuleViolation, s) := by
  simp [executeArchiveOperation, hperm, hval, hgate]

/-- Witness for `C2_amended` at the gate-violating `date_end =
20251015120000`. -/
theorem C2_amended_witness :
    checkPermission "Admin" "ARCHIVE" = true ∧
    retentionGateViolated refMinArchiveDate opC2v.filters = true ∧
    executeArchiveOperation opC2v "Admin" true refMinArchiveDate stC2 =
      (errResult .safetyRuleViolation, stC2) :=
  ⟨by decide, by decide,
   C2_amended opC2v "Admin" refMinArchiveDate stC2 (by decide) (by decide) (by decide)⟩

/-! ## Claim C4 -/

/-- Claim C4 counterexample: the candidate `SELECT 1; DROP TABLE USERS`
contains the forbidden `DROP` pattern outside any quoted literal, yet the
validator silently truncates at the semicolon and hands
`SELECT 1 LIMIT 100` to the database instead of rejecting the candidate. -/
theorem C4_counterexample :
    findForbidden (stripQuotes (trimStr (toUpperStr "SELECT 1; DROP TABLE USERS"))) =
      some "DROP" ∧
    validateSqlQuery "SELECT 1; DROP TABLE USERS" = .run "SELECT 1 LIMIT 100" := by
  decide

/-- Claim C4 amended: the forbidden-keyword scan applies only to the first
semicolon-separated statement; whenever that statement, uppercased and with
quoted literals masked, matches a forbidden pattern, the executor returns
the security-violation error and nothing is executed.  Keywords appearing
only in later semicolon-separated statements are silently discarded with
those statements. -/
theorem C4_amended (s kw : String)
    (hne : firstStatement s ≠ "")
    (hf : findForbidden (stripQuotes (trimStr (toUpperStr (firstStatement s)))) =
      some kw) :
    validateSqlQuery s = .securityViolation kw := by
  unfold validateSqlQuery
  have h1 : (firstStatement s == "") = false := by
    simpa using hne
  simp [h1, hf]

/-- Witness for `C4_amended` on `DELETE FROM dsiactivities`. -/
theorem C4_amended_witness :
    firstStatement "DELETE FROM dsiactivities" ≠ "" ∧
    validateSqlQuery "DELETE FROM dsiactivities" = .securityViolation "DELETE FROM" :=
  ⟨by decide,
   C4_amended "DELETE FROM dsiactivities" "DELETE FROM" (by decide) (by decide)⟩

/-! ## Claim C5 -/

/-- Claim C5 counterexample: the core does not reject an ARCHIVE that
targets `dsiactivitiesarchive` — the preview succeeds (the archive table is
mapped to itself by `_get_model_classes`), returning `success = true` with
no error. -/
theorem C5_counterexample :
    getModelClasses "dsiactivitiesarchive" = some (.archAct, .archAct) ∧
    (executeArchiveOperation opC5 "Admin" false refMinArchiveDate stEmpty).1.success
      = true ∧
    (executeArchiveOperation opC5 "Admin" false refMinArchiveDate stEmpty).1.error
      = none := by
  decide

/-- Claim C5 amended: only the DELETE direction is enforced by the core — a
permitted, validation-clean DELETE whose operation is not marked as
targeting an archive table is rejected with the state unchanged; ARCHIVE
has no such direction check (an archive-table target is mapped to itself
and previews succeed). -/
theorem C5_amended (op : ParsedOperation) (role : String) (conf : Bool)
    (d : DateTime) (s : DBState)
    (hperm : checkPermission role "DELETE" = true)
    (hval : op.validationErrors = [])
    (htarget : op.isArchiveTarget = false) :
    executeDeleteOperation op role conf d s = (errResult .deleteNotArchiveTarget, s) := by
  simp [executeDeleteOperation, hperm, hval, htarget]

/-- Witness for `C5_amended` on a DELETE not marked as archive-targeting. -/
theorem C5_amended_witness :
    checkPermission "Admin" "DELETE" = true ∧
    opC5w.isArchiveTarget = false ∧
    executeDeleteOperation opC5w "Admin" true refMinArchiveDate stEmpty =
      (errResult .deleteNotArchiveTarget, stEmpty) :=
  ⟨by decide, by decide,
   C5_amended opC5w "Admin" true refMinArchiveDate stEmpty (by decide) (by decide)
     (by decide)⟩

/-! ## Claim C6 -/

/-- Claim C6 counterexample: with no preview turn recoverable — only a
stored turn whose user message mentions archiving, with no stored table —
`CONFIRM ARCHIVE` is not refused: the handler executes an archive against
the last-resort default table `dsiactivities`. -/
theorem C6_counterexample :
    findPreviewTurn [turnC6] = none ∧
    turnC6.tableName = none ∧
    handleOperationConfirmation "CONFIRM ARCHIVE" [turnC6] =
      .execArchive "dsiactivities" := by
  decide

/-- Claim C6 amended: the confirmation is refused (no operation executed)
only when neither a preview turn nor any archive/delete-related turn is
recoverable from the stored turns; when a related turn exists the handler
executes, resolving the table from stored data, message keywords, the bot
response, or finally the hard-coded default `dsiactivities`. -/
theorem C6_amended (m : String) (logs : List ChatTurn)
    (hlit : containsSub m "CONFIRM ARCHIVE" = true ∨
      containsSub m "CONFIRM DELETE" = true)
    (hp : findPreviewTurn logs = none)
    (hr : findRelatedTurn logs = none) :
    handleOperationConfirmation m logs = .refused := by
  rcases hlit with h | h <;> simp [handleOperationConfirmation, h, hp, hr]

/-- Witness for `C6_amended` with an empty history. -/
theorem C6_amended_witness :
    containsSub "CONFIRM ARCHIVE" "CONFIRM ARCHIVE" = true ∧
    handleOperationConfirmation "CONFIRM ARCHIVE" ([] : List ChatTurn) = .refused :=
  ⟨by decide,
   C6_amended "CONFIRM ARCHIVE" [] (Or.inl (by decide)) (by decide) (by decide)⟩

/-! ## Claim C8 -/

/-- Claim C8 counterexample: a limit-only ARCHIVE request (no `date_filter`
and no `date_end`) does receive an implicit date filter — the wrapper
substitutes the default `older_than_7_days`, which becomes
`date_end = now - 7d` with the `older_than` comparison, alongside the
preserved limit. -/
theorem C8_counterexample :
    fC8.dateFilter = none ∧ fC8.dateEnd = none ∧ fC8.limit = some 300 ∧
    mcpPreprocess refSubDays "older_than_7_days" 7 fC8 =
      .proceed { fC8 with dateEnd := some "20251008120000", olderThan := true }
        true := by
  decide

/-- Claim C8 amended: whenever an ARCHIVE request carries neither
`date_filter` nor `date_end`, the wrapper adds the default
`older_than_7_days` filter, so the operation's filters carry
`date_end = now - 7 days` with the strict `older_than` comparison; the
supplied limit is preserved alongside it rather than staying orthogonal to
an absent date filter. -/
theorem C8_amended (subD : Nat → DateTime) (f : Filters)
    (h1 : f.dateFilter = none) (h2 : f.dateEnd = none) :
    ∃ pf, mcpPreprocess subD "older_than_7_days" 7 f = .proceed pf f.confirmed ∧
      pf.dateEnd = some (dtToStr (subD 7)) ∧ pf.olderThan = true ∧
      pf.limit = f.limit := by
  refine ⟨{ f with
    dateFilter := none
    dateEnd := some (dtToStr (subD 7))
    olderThan := true }, ?_, rfl, rfl, rfl⟩
  have hc : containsSub "older_than_7_days" "older_than_" = true := by decide
  have hp : parseOlderThan "older_than_7_days" = some (7, "days") := by decide
  have hd : strStartsWith "days" "day" = true := by decide
  have hm : strStartsWith "days" "month" = false := by decide
  simp [mcpPreprocess, h1, h2, hc, hp, hd, hm]

/-- Witness for `C8_amended` on the empty filter dictionary. -/
theorem C8_amended_witness :
    noFilters.dateFilter = none ∧
    ∃ pf, mcpPreprocess refSubDays "older_than_7_days" 7 noFilters =
        .proceed pf noFilters.confirmed ∧
      pf.dateEnd = some (dtToStr (refSubDays 7)) ∧ pf.olderThan = true ∧
      pf.limit = noFilters.limit :=
  ⟨rfl, C8_amended refSubDays noFilters rfl rfl⟩

/-! ## Shared lemmas about the pipeline structure -/

theorem DBState.set_clock (s : DBState) (t : PhysTable) (l : List Row) :
    (s.set t l).clock = s.clock := by
  cases t <;> rfl

theorem DBState.set_jobLogs (s : DBState) (t : PhysTable) (l : List Row) :
    (s.set t l).jobLogs = s.jobLogs := by
  cases t <;> rfl

/-- `_perform_archive` never touches the clock. -/
theorem performArchive_clock (op : ParsedOperation) (s : DBState)
    (c : ArchiveCounts) (s2 : DBState)
    (h : performArchive op s = .ok (c, s2)) : s2.clock = s.clock := by
  unfold performArchive at h
  split at h
  · simp only [Except.ok.injEq, Prod.ext_iff] at h
    rw [← h.2]
    rfl
  · split at h
    · simp only [Except.ok.injEq, Prod.ext_iff] at h
      rw [← h.2]
      rfl
    · simp at h

/-- `_perform_delete` never touches the clock. -/
theorem performDelete_clock (f : Filters) (archT : PhysTable) (s : DBState)
    (n : Nat) (s2 : DBState)
    (h : performDelete f archT s = .ok (n, s2)) : s2.clock = s.clock := by
  unfold performDelete at h
  split at h
  · simp at h
  · simp only [Except.ok.injEq, Prod.ext_iff] at h
    rw [← h.2, DBState.set_clock]

/-- A preview never changes the database state. -/
theorem previewArchive_state (op : ParsedOperation) (s : DBState) :
    (previewArchive op s).2 = s := by
  unfold previewArchive
  split <;> rfl

/-- A delete preview never changes the database state. -/
theorem previewDelete_state (op : ParsedOperation) (s : DBState) :
    (previewDelete op s).2 = s := by
  unfold previewDelete
  split <;> rfl

theorem archiveAfterGate_false (op : ParsedOperation) (s : DBState) :
    archiveAfterGate op false s = previewArchive op s := rfl

theorem deleteAfterGate_false (op : ParsedOperation) (s : DBState) :
    deleteAfterGate op false s = previewDelete op s := rfl

/-- Once the permission, validation and retention checks pass, the archive
entry point is exactly its preview-or-execute continuation. -/
theorem executeArchive_passes (op : ParsedOperation) (role : String)
    (conf : Bool) (d : DateTime) (s : DBState)
    (hperm : checkPermission role "ARCHIVE" = true)
    (hval : op.validationErrors = [])
    (hgate : retentionGateViolated d op.filters = false) :
    executeArchiveOperation op role conf d s = archiveAfterGate op conf s := by
  simp [executeArchiveOperation, hperm, hval, hgate]

/-- Once the permission, validation, direction and retention checks pass,
the delete entry point is exactly its preview-or-execute continuation. -/
theorem executeDelete_passes (op : ParsedOperation) (role : String)
    (conf : Bool) (d : DateTime) (s : DBState)
    (hperm : checkPermission role "DELETE" = true)
    (hval : op.validationErrors = [])
    (htarget : op.isArchiveTarget = true)
    (hgate : retentionGateViolated d op.filters = false) :
    executeDeleteOperation op role conf d s = deleteAfterGate op conf s := by
  simp [executeDeleteOperation, hperm, hval, htarget, hgate]

/-! ## Claim C3 -/

/-- Claim C3 counterexample: a confirmed ARCHIVE that fails validation
returns the validation error with zero job-log records — not the one
closed record the claim requires. -/
theorem C3_counterexample :
    c3Run.1.error = some (.validationFailed ["missing table"]) ∧
    c3Run.2.jobLogs.length = 0 ∧
    c3Run.2 = stEmpty := by
  decide

/-- Claim C3 amended: only confirmed calls that reach their transaction
produce a job-log record, and then exactly one — appended to the log,
closed with status SUCCESS or FAILED and `finishedAt ≥ startedAt` (a
confirmed DELETE whose filters carry a positive limit fails inside its
transaction, since `Query.delete()` rejects limited queries, leaving one
FAILED record and no deletion); calls rejected by the permission,
validation, direction or retention checks, and previews, leave the
database state — and hence the job log — unchanged. -/
theorem C3_amended :
    (∀ (op : ParsedOperation) (role : String) (d : DateTime) (s : DBState),
      checkPermission role "ARCHIVE" = true →
      op.validationErrors = [] →
      retentionGateViolated d op.filters = false →
      (getModelClasses op.table).isSome = true →
      ∃ rec : JobLog,
        (executeArchiveOperation op role true d s).2.jobLogs = s.jobLogs ++ [rec] ∧
        (rec.status = "SUCCESS" ∨ rec.status = "FAILED") ∧
        ∃ tf, rec.finishedAt = some tf ∧ rec.startedAt ≤ tf) ∧
    (∀ (op : ParsedOperation) (role : String) (d : DateTime) (s : DBState),
      checkPermission role "DELETE" = true →
      op.validationErrors = [] →
      op.isArchiveTarget = true →
      retentionGateViolated d op.filters = false →
      (getModelClasses op.table).isSome = true →
      ∃ rec : JobLog,
        (executeDeleteOperation op role true d s).2.jobLogs = s.jobLogs ++ [rec] ∧
        (rec.status = "SUCCESS" ∨ rec.status = "FAILED") ∧
        ∃ tf, rec.finishedAt = some tf ∧ rec.startedAt ≤ tf) ∧
    (∀ (op : ParsedOperation) (role : String) (conf : Bool) (d : DateTime)
      (s : DBState),
      checkPermission role "ARCHIVE" = false ∨ op.validationErrors ≠ [] ∨
        retentionGateViolated d op.filters = true →
      (executeArchiveOperation op role conf d s).2 = s) ∧
    (∀ (op : ParsedOperation) (role : String) (conf : Bool) (d : DateTime)
      (s : DBState),
      checkPermission role "DELETE" = false ∨ op.validationErrors ≠ [] ∨
        op.isArchiveTarget = false ∨ retentionGateViolated d op.filters = true →
      (executeDeleteOperation op role conf d s).2 = s) ∧
    (∀ (op : ParsedOperation) (role : String) (d : DateTime) (s : DBState),
      (executeArchiveOperation op role false d s).2 = s) ∧
    (∀ (op : ParsedOperation) (role : String) (d : DateTime) (s : DBState),
      (executeDeleteOperation op role false d s).2 = s) := by
  refine ⟨?_, ?_, ?_, ?_, ?_, ?_⟩
  · intro op role d s hperm hval hgate hmc
    obtain ⟨mc, hmc'⟩ := Option.isSome_iff_exists.mp hmc
    rw [executeArchive_passes op role true d s hperm hval hgate]
    unfold archiveAfterGate archiveConfirmed
    rw [hmc']
    simp only [Bool.not_true, Bool.false_eq_true, if_false]
    split
    next c s2 heq =>
      refine ⟨_, rfl, Or.inl rfl, s2.clock, rfl, ?_⟩
      have hclk := performArchive_clock op _ c s2 heq
      rw [hclk]
      exact Nat.le_succ _
    next e heq =>
      exact ⟨_, rfl, Or.inr rfl, s.clock + 1, rfl, Nat.le_refl _⟩
  · intro op role d s hperm hval htarget hgate hmc
    obtain ⟨mc, hmc'⟩ := Option.isSome_iff_exists.mp hmc
    obtain ⟨mt, archT⟩ := mc
    rw [executeDelete_passes op role true d s hperm hval htarget hgate]
    unfold deleteAfterGate deleteConfirmed
    rw [hmc']
    simp only [Bool.not_true, Bool.false_eq_true, if_false]
    split
    next n s2 heq =>
      refine ⟨_, rfl, Or.inl rfl, s2.clock, rfl, ?_⟩
      have hclk := performDelete_clock op.filters archT _ n s2 heq
      rw [hclk]
      exact Nat.le_succ _
    next e heq =>
      exact ⟨_, rfl, Or.inr rfl, s.clock + 1, rfl, Nat.le_refl _⟩
  · intro op role conf d s h
    unfold executeArchiveOperation
    split
    next h1 => rfl
    next h1 =>
      split
      next h2 => rfl
      next h2 =>
        split
        next h3 => rfl
        next h3 =>
          exfalso
          rcases h with hc | hc | hc
          · exact h1 (by rw [hc]; rfl)
          · exact h2 hc
          · exact h3 hc
  · intro op role conf d s h
    unfold executeDeleteOperation
    split
    next h1 => rfl
    next h1 =>
      split
      next h2 => rfl
      next h2 =>
        split
        next h3 => rfl
        next h3 =>
          split
          next h4 => rfl
          next h4 =>
            exfalso
            rcases h with hc | hc | hc | hc
            · exact h1 (by rw [hc]; rfl)
            · exact h2 hc
            · exact h3 (by rw [hc]; rfl)
            · exact h4 hc
  · intro op role d s
    unfold executeArchiveOperation
    split
    next h1 => rfl
    next h1 =>
      split
      next h2 => rfl
      next h2 =>
        split
        next h3 => rfl
        next h3 =>
          rw [archiveAfterGate_false, previewArchive_state]
  · intro op role d s
    unfold executeDeleteOperation
    split
    next h1 => rfl
    next h1 =>
      split
      next h2 => rfl
      next h2 =>
        split
        next h3 => rfl
        next h3 =>
          split
          next h4 => rfl
          next h4 =>
            rw [deleteAfterGate_false, previewDelete_state]

/-- Witness for `C3_amended`: a confirmed archive and two confirmed
deletes (one plain, one limit-carrying, the latter concretely finishing
FAILED with nothing deleted), a validation-failing archive, a
direction-failing delete, and two previews, over concrete states. -/
theorem C3_amended_witness :
    (∃ rec : JobLog,
      (executeArchiveOperation opC7 "Admin" true refMinArchiveDate stEmpty).2.jobLogs
        = stEmpty.jobLogs ++ [rec] ∧
      (rec.status = "SUCCESS" ∨ rec.status = "FAILED") ∧
      ∃ tf, rec.finishedAt = some tf ∧ rec.startedAt ≤ tf) ∧
    (∃ rec : JobLog,
      (executeDeleteOperation opC3d "Admin" true refMinArchiveDate stEmpty).2.jobLogs
        = stEmpty.jobLogs ++ [rec] ∧
      (rec.status = "SUCCESS" ∨ rec.status = "FAILED") ∧
      ∃ tf, rec.finishedAt = some tf ∧ rec.startedAt ≤ tf) ∧
    (∃ rec : JobLog,
      (executeDeleteOperation opC3dLim "Admin" true refMinArchiveDate stC1).2.jobLogs
        = stC1.jobLogs ++ [rec] ∧
      (rec.status = "SUCCESS" ∨ rec.status = "FAILED") ∧
      ∃ tf, rec.finishedAt = some tf ∧ rec.startedAt ≤ tf) ∧
    (executeDeleteOperation opC3dLim "Admin" true refMinArchiveDate stC1).2.jobLogs.map
      JobLog.status = ["FAILED"] ∧
    (executeDeleteOperation opC3dLim "Admin" true refMinArchiveDate stC1).1.success
      = false ∧
    (executeDeleteOperation opC3dLim "Admin" true refMinArchiveDate stC1).2.archTl
      = stC1.archTl ∧
    (executeArchiveOperation opC3 "Admin" true refMinArchiveDate stEmpty).2 = stEmpty ∧
    (executeDeleteOperation opC5w "Admin" true refMinArchiveDate stEmpty).2 = stEmpty ∧
    (executeArchiveOperation opC1 "Admin" false refMinArchiveDate stC1).2 = stC1 ∧
    (executeDeleteOperation opC3d "Admin" false refMinArchiveDate stEmpty).2 = stEmpty :=
  ⟨C3_amended.1 opC7 "Admin" refMinArchiveDate stEmpty (by decide) rfl (by decide)
    (by decide),
   C3_amended.2.1 opC3d "Admin" refMinArchiveDate stEmpty (by decide) rfl rfl
    (by decide) (by decide),
   C3_amended.2.1 opC3dLim "Admin" refMinArchiveDate stC1 (by decide) rfl rfl
    (by decide) (by decide),
   by decide, by decide, by decide,
   C3_amended.2.2.1 opC3 "Admin" true refMinArchiveDate stEmpty
    (Or.inr (Or.inl (by decide))),
   C3_amended.2.2.2.1 opC5w "Admin" true refMinArchiveDate stEmpty
    (Or.inr (Or.inr (Or.inl rfl))),
   C3_amended.2.2.2.2.1 opC1 "Admin" refMinArchiveDate stC1,
   C3_amended.2.2.2.2.2 opC3d "Admin" refMinArchiveDate stEmpty⟩

/-! ## Claim C10 -/

/-- Claim C10: when `date_end` is present but its first eight characters do
not parse as a `YYYYMMDD` date, the parse error is only logged: the
retention gate reports no violation, and both entry points proceed to their
preview-or-execute continuation with the unvalidated `date_end` filter
unchanged — the 7-day and 30-day checks are skipped entirely. -/
theorem C10_theorem (op : ParsedOperation) (role : String) (conf : Bool)
    (d : DateTime) (s : DBState) (ds : String)
    (hde : op.filters.dateEnd = some ds)
    (hparse : parseYYYYMMDD (strTake ds 8) = none) :
    retentionGateViolated d op.filters = false ∧
    (checkPermission role "ARCHIVE" = true → op.validationErrors = [] →
      executeArchiveOperation op role conf d s = archiveAfterGate op conf s) ∧
    (checkPermission role "DELETE" = true → op.validationErrors = [] →
      op.isArchiveTarget = true →
      executeDeleteOperation op role conf d s = deleteAfterGate op conf s) := by
  have hgate : retentionGateViolated d op.filters = false := by
    simp [retentionGateViolated, hde, hparse]
  refine ⟨hgate, fun hperm hval => ?_, fun hperm hval htar => ?_⟩
  · exact executeArchive_passes op role conf d s hperm hval hgate
  · exact executeDelete_passes op role conf d s hperm hval htar hgate

/-- Witness for `C10_theorem` at the unparseable `date_end`
`2025XX08000000`. -/
theorem C10_theorem_witness :
    opC10.filters.dateEnd = some "2025XX08000000" ∧
    parseYYYYMMDD (strTake "2025XX08000000" 8) = none ∧
    retentionGateViolated refMinArchiveDate opC10.filters = false ∧
    executeArchiveOperation opC10 "Admin" true refMinArchiveDate stEmpty =
      archiveAfterGate opC10 true stEmpty ∧
    executeDeleteOperation opC10 "Admin" true refMinArchiveDate stEmpty =
      deleteAfterGate opC10 true stEmpty := by
  have h := C10_theorem opC10 "Admin" true refMinArchiveDate stEmpty
    "2025XX08000000" rfl (by decide)
  exact ⟨rfl, by decide, h.1, h.2.1 (by decide) rfl, h.2.2 (by decide) rfl rfl⟩

/-! ## Claim C7 -/

/-- Rows surviving a filter on `!p` never satisfy any predicate implying
`p`. -/
theorem filter_not_filter {α : Type} (p q : α → Bool) (l : List α)
    (h : ∀ a, q a = true → p a = true) :
    (l.filter (fun r => !(p r))).filter q = [] := by
  induction l with
  | nil => rfl
  | cons a t ih =>
    cases hp : p a with
    | true => simpa [List.filter_cons, hp] using ih
    | false =>
      have hq : q a = false := by
        cases hqa : q a
        · rfl
        · exact absurd (h a hqa) (by simp [hp])
      simpa [List.filter_cons, hp, hq] using ih

/-- Without agent/server filters, the archive clause for the transaction
log coincides with the duplicate-probe clause. -/
theorem archWhere_tl_eq_dup (f : Filters) (hA : f.agentName = none)
    (hS : f.serverName = none) (r : Row) :
    archWhere "dsitransactionlog" f r = dupWhereTl f r := by
  simp [archWhere, dupWhereTl, optEq, hA, hS, Bool.and_assoc]

/-- Without an agent filter, the archive clause for activities coincides
with the duplicate-probe clause. -/
theorem archWhere_act_eq_dup (f : Filters) (hA : f.agentName = none) (r : Row) :
    archWhere "dsiactivities" f r = dupWhereAct f r := by
  have hne : ("dsiactivities" == "dsitransactionlog") = false := by decide
  simp [archWhere, dupWhereAct, optEq, hA, hne, Bool.and_assoc]

/-- The transaction-log insert predicate only selects rows matching the
archive clause. -/
theorem tlInsertPred_arch (f : Filters) (ex gu : List String) (r : Row)
    (h : tlInsertPred f ex gu r = true) :
    archWhere "dsitransactionlog" f r = true := by
  unfold tlInsertPred at h
  simp only [Bool.and_eq_true] at h
  exact h.1

/-- A transaction-log `_perform_archive` run on a state whose main table
already contains no row matching the archive clause reports zero archived,
deleted and skipped rows. -/
theorem performArchiveTl_counts_zero (f : Filters) (l : List Row) (st : DBState)
    (hL : f.limit = none) (hA : f.agentName = none) (hS : f.serverName = none)
    (htl : st.tl = l.filter (fun r => !(archWhere "dsitransactionlog" f r))) :
    (performArchiveTl f st).1 = ⟨0, 0, 0⟩ := by
  have hdel : ∀ (rows : List Row) (r : Row),
      deletePred "dsitransactionlog" f rows r = archWhere "dsitransactionlog" f r := by
    intro rows r
    unfold deletePred
    rw [hL]
  have e1 : (l.filter (fun r => !(archWhere "dsitransactionlog" f r))).filter
      (fun r => dupWhereTl f r) = [] :=
    filter_not_filter _ _ _ (fun a ha => by rw [archWhere_tl_eq_dup f hA hS a]; exact ha)
  have e2 : ∀ ex gu : List String,
      (l.filter (fun r => !(archWhere "dsitransactionlog" f r))).filter
        (fun r => tlInsertPred f ex gu r) = [] :=
    fun ex gu => filter_not_filter _ _ _ (fun a ha => tlInsertPred_arch f ex gu a ha)
  have e3 : (l.filter (fun r => !(archWhere "dsitransactionlog" f r))).filter
      (fun r => archWhere "dsitransactionlog" f r) = [] :=
    filter_not_filter _ _ _ (fun a ha => ha)
  unfold performArchiveTl existingGuids
  simp only [hdel, htl, e1, e2, e3, applyLimit, hL, List.filterMap_nil,
    List.filter_nil, List.dedup_nil, List.length_nil]

/-- The activities analogue of `performArchiveTl_counts_zero`. -/
theorem performArchiveAct_counts_zero (f : Filters) (l : List Row) (st : DBState)
    (hL : f.limit = none) (hA : f.agentName = none)
    (htl : st.act = l.filter (fun r => !(archWhere "dsiactivities" f r))) :
    (performArchiveAct f st).1 = ⟨0, 0, 0⟩ := by
  have hdel : ∀ (rows : List Row) (r : Row),
      deletePred "dsiactivities" f rows r = archWhere "dsiactivities" f r := by
    intro rows r
    unfold deletePred
    rw [hL]
  have e1 : (l.filter (fun r => !(archWhere "dsiactivities" f r))).filter
      (fun r => dupWhereAct f r) = [] :=
    filter_not_filter _ _ _ (fun a ha => by rw [archWhere_act_eq_dup f hA a]; exact ha)
  have e2 : ∀ ex : List (String × String),
      (l.filter (fun r => !(archWhere "dsiactivities" f r))).filter
        (fun r => archWhere "dsiactivities" f r &&
          !(ex.contains (r.activityID, r.time))) = [] :=
    fun ex => filter_not_filter _ _ _ (fun a ha => by
      simp only [Bool.and_eq_true] at ha
      exact ha.1)
  have e3 : (l.filter (fun r => !(archWhere "dsiactivities" f r))).filter
      (fun r => archWhere "dsiactivities" f r) = [] :=
    filter_not_filter _ _ _ (fun a ha => ha)
  unfold performArchiveAct existingActPairs
  simp only [hdel, htl, e1, e2, e3, applyLimit, hL, List.map_nil,
    List.filter_nil, List.dedup_nil, List.length_nil]

/-- Claim C7 counterexample: running the same confirmed ARCHIVE twice on a
table with one fresh row archives 1 row on the first run, but the second
run reports `skippedCount = 0` — strictly less than the first run's
`archivedCount` — because the first run deleted every filtered row from
main (duplicates included), leaving nothing to probe as a duplicate. -/
theorem C7_counterexample :
    c7Run1.1.recordsArchived = 1 ∧
    c7Run2.1.recordsArchived = 0 ∧
    c7Run2.1.recordsDeleted = 0 ∧
    c7Run2.1.recordsSkipped < c7Run1.1.recordsArchived := by
  decide

/-- Claim C7 amended: for a confirmed ARCHIVE without a limit whose filters
use only the duplicate-probe columns (no `agent_name`; for the transaction
log also no `server_name`), running `_perform_archive` a second time on the
state the first run produced yields `archivedCount = 0`, `deletedCount = 0`
and `skippedCount = 0` — not `skippedCount ≥ prev.archivedCount` — since
the first run deletes every filtered row from main. -/
theorem C7_amended :
    (∀ (f : Filters) (s : DBState), f.limit = none → f.agentName = none →
      f.serverName = none →
      (performArchiveTl f ((performArchiveTl f s).2)).1 = ⟨0, 0, 0⟩) ∧
    (∀ (f : Filters) (s : DBState), f.limit = none → f.agentName = none →
      (performArchiveAct f ((performArchiveAct f s).2)).1 = ⟨0, 0, 0⟩) := by
  constructor
  · intro f s hL hA hS
    apply performArchiveTl_counts_zero f s.tl _ hL hA hS
    have hdel : ∀ (rows : List Row) (r : Row),
        deletePred "dsitransactionlog" f rows r = archWhere "dsitransactionlog" f r := by
      intro rows r
      unfold deletePred
      rw [hL]
    calc (performArchiveTl f s).2.tl
        = s.tl.filter (fun r => !(deletePred "dsitransactionlog" f s.tl r)) := rfl
      _ = s.tl.filter (fun r => !(archWhere "dsitransactionlog" f r)) := by
          simp only [hdel]
  · intro f s hL hA
    apply performArchiveAct_counts_zero f s.act _ hL hA
    have hdel : ∀ (rows : List Row) (r : Row),
        deletePred "dsiactivities" f rows r = archWhere "dsiactivities" f r := by
      intro rows r
      unfold deletePred
      rw [hL]
    calc (performArchiveAct f s).2.act
        = s.act.filter (fun r => !(deletePred "dsiactivities" f s.act r)) := rfl
      _ = s.act.filter (fun r => !(archWhere "dsiactivities" f r)) := by
          simp only [hdel]

/-- Witness for `C7_amended` on the one-row C7 state and on an activities
state with the same shape. -/
theorem C7_amended_witness :
    opC7.filters.limit = none ∧
    (performArchiveTl opC7.filters ((performArchiveTl opC7.filters stC7).2)).1 =
      ⟨0, 0, 0⟩ ∧
    (performArchiveAct opC7.filters ((performArchiveAct opC7.filters stC7).2)).1 =
      ⟨0, 0, 0⟩ :=
  ⟨rfl,
   C7_amended.1 opC7.filters stC7 rfl rfl rfl,
   C7_amended.2 opC7.filters stC7 rfl rfl⟩

/-! ## Claim C9 -/

theorem previewArchive_not_denied (op : ParsedOperation) (s : DBState) :
    isPermissionDenied (previewArchive op s).1 = false := by
  unfold previewArchive
  split <;> rfl

theorem archiveConfirmed_not_denied (op : ParsedOperation) (s : DBState) :
    isPermissionDenied (archiveConfirmed op s).1 = false := by
  unfold archiveConfirmed
  split
  · rfl
  · simp only []
    split <;> rfl

theorem executeArchive_admin_not_denied (op : ParsedOperation) (conf : Bool)
    (d : DateTime) (s : DBState) :
    isPermissionDenied (executeArchiveOperation op "Admin" conf d s).1 = false := by
  have hperm : checkPermission "Admin" "ARCHIVE" = true := by decide
  unfold executeArchiveOperation
  rw [hperm]
  simp only [Bool.not_true, Bool.false_eq_true, if_false]
  split
  · rfl
  · split
    · rfl
    · unfold archiveAfterGate
      split
      · exact previewArchive_not_denied op s
      · exact archiveConfirmed_not_denied op s

theorem previewDelete_not_denied (op : ParsedOperation) (s : DBState) :
    isPermissionDenied (previewDelete op s).1 = false := by
  unfold previewDelete
  split <;> rfl

theorem deleteConfirmed_not_denied (op : ParsedOperation) (s : DBState) :
    isPermissionDenied (deleteConfirmed op s).1 = false := by
  unfold deleteConfirmed
  split
  · rfl
  · simp only []
    split <;> rfl

theorem executeDelete_admin_not_denied (op : ParsedOperation) (conf : Bool)
    (d : DateTime) (s : DBState) :
    isPermissionDenied (executeDeleteOperation op "Admin" conf d s).1 = false := by
  have hperm : checkPermission "Admin" "DELETE" = true := by decide
  unfold executeDeleteOperation
  rw [hperm]
  simp only [Bool.not_true, Bool.false_eq_true, if_false]
  split
  · rfl
  · split
    · rfl
    · split
      · rfl
      · unfold deleteAfterGate
        split
        · exact previewDelete_not_denied op s
        · exact deleteConfirmed_not_denied op s

/-- Claim C9: the CRUD entry points default `user_role` to `Admin`, the
Admin role passes both the ARCHIVE and DELETE permission checks, the
Monitor role passes neither, and every call routed through the MCP
wrappers — which always pass `user_role="Admin"` — clears the core's
permission check: no wrapper call ever returns the permission-denied
error, so the Monitor restriction can only be enforced above the core. -/
theorem C9_theorem :
    userRoleDefault = "Admin" ∧
    checkPermission userRoleDefault "ARCHIVE" = true ∧
    checkPermission userRoleDefault "DELETE" = true ∧
    checkPermission "Monitor" "ARCHIVE" = false ∧
    checkPermission "Monitor" "DELETE" = false ∧
    (∀ (subD : Nat → DateTime) (d : DateTime) (t : String) (f : Filters)
      (s : DBState),
      isPermissionDenied (archiveRecords subD d t f s).1 = false) ∧
    (∀ (subD : Nat → DateTime) (d : DateTime) (t : String) (f : Filters)
      (s : DBState),
      isPermissionDenied (deleteArchivedRecords subD d t f s).1 = false) := by
  refine ⟨rfl, by decide, by decide, by decide, by decide, ?_, ?_⟩
  · intro subD d t f s
    unfold archiveRecords
    split
    · rfl
    · exact executeArchive_admin_not_denied _ _ _ _
  · intro subD d t f s
    unfold deleteArchivedRecords
    split
    · rfl
    · exact executeDelete_admin_not_denied _ _ _ _

end CscLog
